import Mathlib

/-!
Shallow embedding of the banking service in `src/main.py` (FastAPI + SQLAlchemy).

The persistent store is modelled as an explicit state (`DB`): a list of account
rows and a list of transaction rows, plus the autoincrement counters for the
two primary keys.  Monetary values (`Float` in the source, "decimal-equivalent"
in the specification) are modelled as exact rationals `ℚ`.  Timestamps are
irrelevant to the verified properties except for nullness of `deleted_at`,
which is modelled as a `Bool` flag (`deleted = true` iff `deleted_at` is
non-null).

Each HTTP handler is a pure function from its arguments and the current `DB`
to `Except HTTPError _`.  Every handler body in the source sits inside
`try: ... except Exception as e: raise HTTPException(status_code=500,
detail=str(e))`; since `fastapi.HTTPException` is an `Exception` subclass,
a 404/400 raised inside the `try` block is caught and re-raised with status
500 and detail `str(e) = f"{status_code}: {detail}"`.  This is modelled by
`wrap500`, applied to each handler body.

SQLAlchemy semantics captured by the model:
- `query(...).filter(id == x, deleted_at.is_(None)).first()` is
  `List.find?` with predicate `accPred x` on the row list;
- in-place mutation of the object returned by `.first()` followed by
  `commit()` updates exactly that first matching row (`updateFirst`);
- the session identity map returns the *same* object for two queries that hit
  the same row, so the two sequential mutations in `transfer` with
  `account_id = target_account_id` compose on one record.  This is captured
  by performing the debit update on the state before the credit update;
- `db.delete(obj)` physically removes the row (`removeFirst`);
- autoincrement primary keys are the `nextAccountId` / `nextTransId` counters.
-/

/-- One row of the `accounts` table (`AccountDB` in the source).
`deleted = true` models a non-null `deleted_at`. -/
structure AccountDB where
  id : Nat
  owner : String
  balance : ℚ
  deleted : Bool
deriving DecidableEq, Repr

/-- One row of the `transactions` table (`TransactionDB` in the source). -/
structure TransactionDB where
  id : Nat
  account_id : Nat
  amount : ℚ
  kind : String
  deleted : Bool
deriving DecidableEq, Repr

/-- The SQLite store: both tables plus the autoincrement counters. -/
structure DB where
  accounts : List AccountDB
  transactions : List TransactionDB
  nextAccountId : Nat
  nextTransId : Nat
deriving DecidableEq, Repr

/-- Request body `AccountCreate`: `owner`, `balance` (default 0) and a
pass-through `deleted_at` (modelled by its nullness flag). -/
structure AccountCreate where
  owner : String
  balance : ℚ
  deleted : Bool
deriving DecidableEq, Repr

/-- Request body `TransactionCreate`: `amount`, `type` (any string; the
source performs no validation against the enumerated kinds) and a
pass-through `deleted_at` nullness flag. -/
structure TransactionCreate where
  amount : ℚ
  kind : String
  deleted : Bool
deriving DecidableEq, Repr

/-- A raised `fastapi.HTTPException`: status code and detail string. -/
structure HTTPError where
  status : Nat
  detail : String
deriving DecidableEq, Repr

/-- The filter used by every account query in the source:
`AccountDB.id == account_id, AccountDB.deleted_at.is_(None)`. -/
def accPred (account_id : Nat) (a : AccountDB) : Bool :=
  a.id == account_id && !a.deleted

/-- The filter of `delete_transaction`:
`TransactionDB.id == transaction_id, TransactionDB.deleted_at.is_(None)`. -/
def transPred (transaction_id : Nat) (t : TransactionDB) : Bool :=
  t.id == transaction_id && !t.deleted

/-- `query(...).filter(id == account_id, deleted_at.is_(None)).first()`. -/
def findAccount (db : DB) (account_id : Nat) : Option AccountDB :=
  db.accounts.find? (accPred account_id)

/-- `query(...).filter(id == transaction_id, deleted_at.is_(None)).first()`. -/
def findTransaction (db : DB) (transaction_id : Nat) : Option TransactionDB :=
  db.transactions.find? (transPred transaction_id)

/-- Mutating the object returned by `.first()` and committing: apply `f` to
the first element satisfying `p`, leave everything else unchanged. -/
def updateFirst {α : Type} (p : α → Bool) (f : α → α) : List α → List α
  | [] => []
  | a :: rest => if p a then f a :: rest else a :: updateFirst p f rest

/-- `db.delete(obj)` on the object returned by `.first()`: physically remove
the first element satisfying `p`. -/
def removeFirst {α : Type} (p : α → Bool) : List α → List α
  | [] => []
  | a :: rest => if p a then rest else a :: removeFirst p rest

/-- The `except Exception as e: raise HTTPException(status_code=500,
detail=str(e))` clause wrapping every handler body.  `fastapi.HTTPException`
is an `Exception` subclass and its `str` is `f"{status_code}: {detail}"`, so
any error raised inside the body resurfaces with status 500. -/
def wrap500 {α : Type} : Except HTTPError α → Except HTTPError α
  | .ok v => .ok v
  | .error e => .error ⟨500, toString e.status ++ ": " ++ e.detail⟩

/-- `GET /api/v1/accounts`: all rows with `deleted_at` null. -/
def get_accounts (db : DB) : Except HTTPError (List AccountDB) :=
  wrap500 (.ok (db.accounts.filter (fun a => !a.deleted)))

/-- `POST /api/v1/accounts` body: insert a new row with the request's
`owner`, `balance` and `deleted_at`, assigning the next primary key.
No validation of any field is performed. -/
def create_account_body (account : AccountCreate) (db : DB) : Except HTTPError DB :=
  .ok { db with
        accounts := db.accounts ++
          [⟨db.nextAccountId, account.owner, account.balance, account.deleted⟩],
        nextAccountId := db.nextAccountId + 1 }

/-- `POST /api/v1/accounts` handler (`create_account`). -/
def create_account (account : AccountCreate) (db : DB) : Except HTTPError DB :=
  wrap500 (create_account_body account db)

/-- `GET /api/v1/accounts/{account_id}` body: 404 when no active row. -/
def get_account_body (account_id : Nat) (db : DB) : Except HTTPError AccountDB :=
  match findAccount db account_id with
  | none => .error ⟨404, "Account not found"⟩
  | some a => .ok a

/-- `GET /api/v1/accounts/{account_id}` handler (`get_account`).  The 404
raised in the body is re-raised as 500 by the catch-all clause. -/
def get_account (account_id : Nat) (db : DB) : Except HTTPError AccountDB :=
  wrap500 (get_account_body account_id db)

/-- `PUT /api/v1/accounts/{account_id}` body (`update_account`): overwrite
`owner` and `balance` of the first active row; no invariant check. -/
def update_account_body (account_id : Nat) (account : AccountCreate) (db : DB) :
    Except HTTPError DB :=
  match findAccount db account_id with
  | none => .error ⟨404, "Account not found"⟩
  | some _ => .ok { db with
      accounts := updateFirst (accPred account_id)
        (fun a => { a with owner := account.owner, balance := account.balance })
        db.accounts }

/-- `PUT /api/v1/accounts/{account_id}` handler (`update_account`). -/
def update_account (account_id : Nat) (account : AccountCreate) (db : DB) :
    Except HTTPError DB :=
  wrap500 (update_account_body account_id account db)

/-- `DELETE /api/v1/accounts/{account_id}` body (`delete_account`):
`db.delete(db_account)` physically removes the row. -/
def delete_account_body (account_id : Nat) (db : DB) : Except HTTPError DB :=
  match findAccount db account_id with
  | none => .error ⟨404, "Account not found"⟩
  | some _ => .ok { db with
      accounts := removeFirst (accPred account_id) db.accounts }

/-- `DELETE /api/v1/accounts/{account_id}` handler (`delete_account`). -/
def delete_account (account_id : Nat) (db : DB) : Except HTTPError DB :=
  wrap500 (delete_account_body account_id db)

/-- `POST /api/v1/accounts/{account_id}/deposit` body: `balance += amount`
with no check on the sign or size of `amount`. -/
def deposit_body (account_id : Nat) (amount : ℚ) (db : DB) : Except HTTPError DB :=
  match findAccount db account_id with
  | none => .error ⟨404, "Account not found"⟩
  | some _ => .ok { db with
      accounts := updateFirst (accPred account_id)
        (fun a => { a with balance := a.balance + amount }) db.accounts }

/-- `POST /api/v1/accounts/{account_id}/deposit` handler (`deposit`). -/
def deposit (account_id : Nat) (amount : ℚ) (db : DB) : Except HTTPError DB :=
  wrap500 (deposit_body account_id amount db)

/-- `POST /api/v1/accounts/{account_id}/withdraw` body: 400 when
`balance < amount`, otherwise `balance -= amount`. -/
def withdraw_body (account_id : Nat) (amount : ℚ) (db : DB) : Except HTTPError DB :=
  match findAccount db account_id with
  | none => .error ⟨404, "Account not found"⟩
  | some a =>
    if a.balance < amount then .error ⟨400, "Insufficient funds"⟩
    else .ok { db with
      accounts := updateFirst (accPred account_id)
        (fun b => { b with balance := b.balance - amount }) db.accounts }

/-- `POST /api/v1/accounts/{account_id}/withdraw` handler (`withdraw`). -/
def withdraw (account_id : Nat) (amount : ℚ) (db : DB) : Except HTTPError DB :=
  wrap500 (withdraw_body account_id amount db)

/-- `POST /api/v1/accounts/{account_id}/transfer` body: resolve both rows,
404 if either is missing, 400 if `source.balance < amount`, then
`source.balance -= amount; target.balance += amount; commit()`.
The debit is applied to the state before the credit so that, as under the
session identity map, a self-transfer mutates the single shared record
twice.  No validation of `amount` or of source ≠ target is performed. -/
def transfer_body (account_id target_account_id : Nat) (amount : ℚ) (db : DB) :
    Except HTTPError DB :=
  match findAccount db account_id, findAccount db target_account_id with
  | some source, some _ =>
    if source.balance < amount then .error ⟨400, "Insufficient funds"⟩
    else
      let db1 : DB := { db with
        accounts := updateFirst (accPred account_id)
          (fun a => { a with balance := a.balance - amount }) db.accounts }
      .ok { db1 with
        accounts := updateFirst (accPred target_account_id)
          (fun a => { a with balance := a.balance + amount }) db1.accounts }
  | _, _ => .error ⟨404, "Account not found"⟩

/-- `POST /api/v1/accounts/{account_id}/transfer` handler (`transfer`). -/
def transfer (account_id target_account_id : Nat) (amount : ℚ) (db : DB) :
    Except HTTPError DB :=
  wrap500 (transfer_body account_id target_account_id amount db)

/-- `GET /api/v1/accounts/{account_id}/transactions` (`get_transactions`). -/
def get_transactions (account_id : Nat) (db : DB) :
    Except HTTPError (List TransactionDB) :=
  wrap500 (.ok (db.transactions.filter
    (fun t => t.account_id == account_id && !t.deleted)))

/-- `POST /api/v1/accounts/{account_id}/transactions` body
(`create_transaction`): append a row with the given `account_id`, `amount`
and `type`; no validation of `type` against the enumerated kinds, of the
amount, or of account existence. -/
def create_transaction_body (account_id : Nat) (transaction : TransactionCreate)
    (db : DB) : Except HTTPError DB :=
  .ok { db with
        transactions := db.transactions ++
          [⟨db.nextTransId, account_id, transaction.amount, transaction.kind,
            transaction.deleted⟩],
        nextTransId := db.nextTransId + 1 }

/-- `POST /api/v1/accounts/{account_id}/transactions` handler. -/
def create_transaction (account_id : Nat) (transaction : TransactionCreate)
    (db : DB) : Except HTTPError DB :=
  wrap500 (create_transaction_body account_id transaction db)

/-- `DELETE /api/v1/accounts/{account_id}/transactions/{transaction_id}` body
(`delete_transaction`): soft-delete, `db_transaction.deleted_at =
datetime.now()`.  The `account_id` path parameter is unused by the filter. -/
def delete_transaction_body (_account_id transaction_id : Nat) (db : DB) :
    Except HTTPError DB :=
  match findTransaction db transaction_id with
  | none => .error ⟨404, "Transaction not found"⟩
  | some _ => .ok { db with
      transactions := updateFirst (transPred transaction_id)
        (fun t => { t with deleted := true }) db.transactions }

/-- `DELETE .../transactions/{transaction_id}` handler (`delete_transaction`). -/
def delete_transaction (account_id transaction_id : Nat) (db : DB) :
    Except HTTPError DB :=
  wrap500 (delete_transaction_body account_id transaction_id db)

/-! ### Helper lemmas about the store primitives -/

theorem wrap500_eq_ok {α : Type} {r : Except HTTPError α} {v : α} :
    wrap500 r = .ok v ↔ r = .ok v := by
  cases r <;> simp [wrap500]

theorem find?_updateFirst {α : Type} (p : α → Bool) (f : α → α) (l : List α)
    (hf : ∀ a, p a = true → p (f a) = true) :
    (updateFirst p f l).find? p = (l.find? p).map f := by
  induction l with
  | nil => rfl
  | cons a rest ih =>
    by_cases h : p a
    · rw [updateFirst, if_pos h, List.find?_cons_of_pos _ (hf a h),
        List.find?_cons_of_pos _ h, Option.map_some']
    · rw [updateFirst, if_neg h, List.find?_cons_of_neg _ (Bool.not_eq_true _ ▸ h),
        List.find?_cons_of_neg _ (Bool.not_eq_true _ ▸ h), ih]

theorem find?_updateFirst_disjoint {α : Type} (p q : α → Bool) (f : α → α) (l : List α)
    (h1 : ∀ a, q a = true → p a = false) (h2 : ∀ a, q a = true → p (f a) = false) :
    (updateFirst q f l).find? p = l.find? p := by
  induction l with
  | nil => rfl
  | cons a rest ih =>
    by_cases h : q a
    · rw [updateFirst, if_pos h, List.find?_cons_of_neg, List.find?_cons_of_neg]
      · simp [h1 a h]
      · simp [h2 a h]
    · rw [updateFirst, if_neg h]
      cases hp : p a
      · rw [List.find?_cons_of_neg, List.find?_cons_of_neg, ih] <;> simp [hp]
      · rw [List.find?_cons_of_pos _ hp, List.find?_cons_of_pos _ hp]

theorem length_updateFirst {α : Type} (p : α → Bool) (f : α → α) (l : List α) :
    (updateFirst p f l).length = l.length := by
  induction l with
  | nil => rfl
  | cons a rest ih => by_cases h : p a <;> simp [updateFirst, h, ih]

theorem length_removeFirst {α : Type} (p : α → Bool) (l : List α) (a : α)
    (h : l.find? p = some a) : (removeFirst p l).length + 1 = l.length := by
  induction l with
  | nil => simp at h
  | cons b rest ih =>
    by_cases hb : p b
    · simp [removeFirst, hb]
    · rw [List.find?_cons_of_neg _ (Bool.not_eq_true _ ▸ hb)] at h
      simp [removeFirst, hb, ih h]

theorem mem_updateFirst {α : Type} (p : α → Bool) (f : α → α) (l : List α) (a : α)
    (h : l.find? p = some a) : f a ∈ updateFirst p f l := by
  induction l with
  | nil => simp at h
  | cons b rest ih =>
    by_cases hb : p b
    · rw [List.find?_cons_of_pos _ hb] at h
      obtain rfl : b = a := by injection h
      simp [updateFirst, hb]
    · rw [List.find?_cons_of_neg _ (Bool.not_eq_true _ ▸ hb)] at h
      simp [updateFirst, hb]
      exact Or.inr (ih h)

theorem accPred_of_ne {s t : Nat} (hne : s ≠ t) (a : AccountDB)
    (h : accPred t a = true) : accPred s a = false := by
  unfold accPred at h ⊢
  rcases (Bool.and_eq_true _ _).mp h with ⟨h1, _⟩
  have hid : a.id = t := by simpa using h1
  simp [hid, Ne.symm hne]

/-! ### Concrete states used as witnesses and counterexamples -/

/-- The fresh (empty) SQLite store. -/
def dbEmpty : DB := ⟨[], [], 1, 1⟩

/-- Store holding one active account, id 1, owner Alice, balance 100. -/
def dbAlice : DB := ⟨[⟨1, "Alice", 100, false⟩], [], 2, 1⟩

/-- `dbAlice` after the (physical) delete of account 1. -/
def dbAliceGone : DB := ⟨[], [], 2, 1⟩

/-- Store holding one active account, id 1, balance 10. -/
def dbTen : DB := ⟨[⟨1, "A", 10, false⟩], [], 2, 1⟩

/-- `dbTen` after `deposit 1 (-5)`. -/
def dbTenAfterNegDeposit : DB := ⟨[⟨1, "A", 5, false⟩], [], 2, 1⟩

/-- Store with two active accounts: id 1 balance 10 and id 2 balance 0. -/
def dbPair : DB := ⟨[⟨1, "A", 10, false⟩, ⟨2, "B", 0, false⟩], [], 3, 1⟩

/-- Store with one active account (balance 5) and one active transaction. -/
def dbWit : DB := ⟨[⟨1, "A", 5, false⟩], [⟨1, 1, 2, "deposit", false⟩], 2, 2⟩

/-- The detail string produced by the catch-all for the 404 account error. -/
theorem str404_account :
    toString (404 : Nat) ++ ": " ++ "Account not found" = "404: Account not found" := by
  decide

/-- The detail string produced by the catch-all for the 404 transaction error. -/
theorem str404_transaction :
    toString (404 : Nat) ++ ": " ++ "Transaction not found" = "404: Transaction not found" := by
  decide

/-- The detail string produced by the catch-all for the 400 error. -/
theorem str400_funds :
    toString (400 : Nat) ++ ": " ++ "Insufficient funds" = "400: Insufficient funds" := by
  decide

/-- C9: in every handler with a `try` block that raises a 404 (not found) or
400 (insufficient funds) `HTTPException` — get, update, delete, deposit,
withdraw, transfer — that exception is caught by the handler's own
`except Exception` clause and re-raised as a 500 internal error, so the
caller observes an internal-error response, not the 404/400 kind. -/
theorem C9_catch_all_masks_errors (db : DB) (i t : Nat) (x : ℚ) (ac : AccountCreate) :
    (findAccount db i = none →
      get_account i db = .error ⟨500, "404: Account not found"⟩) ∧
    (findAccount db i = none →
      update_account i ac db = .error ⟨500, "404: Account not found"⟩) ∧
    (findAccount db i = none →
      delete_account i db = .error ⟨500, "404: Account not found"⟩) ∧
    (findAccount db i = none →
      deposit i x db = .error ⟨500, "404: Account not found"⟩) ∧
    (findAccount db i = none →
      withdraw i x db = .error ⟨500, "404: Account not found"⟩) ∧
    (∀ a, findAccount db i = some a → a.balance < x →
      withdraw i x db = .error ⟨500, "400: Insufficient funds"⟩) ∧
    (findAccount db i = none →
      transfer i t x db = .error ⟨500, "404: Account not found"⟩) ∧
    (∀ a b, findAccount db i = some a → findAccount db t = some b → a.balance < x →
      transfer i t x db = .error ⟨500, "400: Insufficient funds"⟩) := by
  refine ⟨?_, ?_, ?_, ?_, ?_, ?_, ?_, ?_⟩
  · intro h
    simp only [get_account, get_account_body, h, wrap500]
    rw [str404_account]
  · intro h
    simp only [update_account, update_account_body, h, wrap500]
    rw [str404_account]
  · intro h
    simp only [delete_account, delete_account_body, h, wrap500]
    rw [str404_account]
  · intro h
    simp only [deposit, deposit_body, h, wrap500]
    rw [str404_account]
  · intro h
    simp only [withdraw, withdraw_body, h, wrap500]
    rw [str404_account]
  · intro a ha hx
    simp only [withdraw, withdraw_body, ha, if_pos hx, wrap500]
    rw [str400_funds]
  · intro h
    simp only [transfer, transfer_body, h, wrap500]
    rw [str404_account]
  · intro a b ha hb hx
    simp only [transfer, transfer_body, ha, hb, if_pos hx, wrap500]
    rw [str400_funds]

/-- C9 witness: on a concrete empty store `get_account` answers 500, and on
a concrete store with balance 100 an overdraft `withdraw` answers 500. -/
theorem C9_catch_all_witness :
    get_account 1 dbEmpty = .error ⟨500, "404: Account not found"⟩ ∧
    withdraw 1 150 dbAlice = .error ⟨500, "400: Insufficient funds"⟩ := by
  constructor
  · exact (C9_catch_all_masks_errors dbEmpty 1 1 0 ⟨"", 0, false⟩).1 rfl
  · exact (C9_catch_all_masks_errors dbAlice 1 1 150 ⟨"", 0, false⟩).2.2.2.2.2.1
      ⟨1, "Alice", 100, false⟩ rfl (by norm_num)

/-- C3 (code bug): withdrawing 150 from the account with balance 100 leaves
the store unchanged with balance 100, but the response is a 500 internal
error wrapping the insufficient-funds 400, not an insufficient-funds
response: the catch-all `except Exception` clause re-raises the handler's
own `HTTPException(400, "Insufficient funds")` as a 500. -/
theorem C3_withdraw_insufficient_masked :
    withdraw 1 150 dbAlice = .error ⟨500, "400: Insufficient funds"⟩ ∧
    (findAccount dbAlice 1).map AccountDB.balance = some 100 := by
  constructor
  · norm_num [withdraw, wrap500, withdraw_body, findAccount, accPred, dbAlice]
    decide
  · rfl

/-- C5 (code bug): after deleting account 1 the account is gone from the
store (the delete is physical), `get` fails, the account is excluded from
the list, and a second delete fails — but both failures are observed as
500 internal errors (the catch-all wraps the 404), not as not-found. -/
theorem C5_soft_delete_visibility_masked :
    delete_account 1 dbAlice = .ok dbAliceGone ∧
    get_account 1 dbAliceGone = .error ⟨500, "404: Account not found"⟩ ∧
    get_accounts dbAliceGone = .ok [] ∧
    delete_account 1 dbAliceGone = .error ⟨500, "404: Account not found"⟩ := by
  refine ⟨?_, ?_, ?_, ?_⟩
  · norm_num [delete_account, wrap500, delete_account_body, findAccount, accPred,
      dbAlice, dbAliceGone, removeFirst]
  · norm_num [get_account, wrap500, get_account_body, findAccount, accPred, dbAliceGone]
    decide
  · norm_num [get_accounts, wrap500, dbAliceGone]
  · norm_num [delete_account, wrap500, delete_account_body, findAccount, accPred,
      dbAliceGone]
    decide

/-- C1 counterexample: `create_account` performs no validation, so a
committed state can contain an active account with negative balance: creating
an account with balance -5 on the empty store succeeds, and the resulting
row is active (`accPred` holds) with balance -5 < 0. -/
theorem C1_counterexample :
    create_account ⟨"Eve", -5, false⟩ dbEmpty = .ok ⟨[⟨1, "Eve", -5, false⟩], [], 2, 1⟩ ∧
    accPred 1 ⟨1, "Eve", -5, false⟩ = true ∧
    (⟨1, "Eve", -5, false⟩ : AccountDB).balance < 0 := by
  refine ⟨rfl, rfl, by norm_num⟩

/-- C4 counterexample: deleting account 1 from the store holding only that
account succeeds and leaves the accounts table empty — the row is physically
removed, not retained with `deleted_at` set. -/
theorem C4_counterexample :
    delete_account 1 dbAlice = .ok dbAliceGone ∧ dbAliceGone.accounts.length = 0 := by
  constructor
  · norm_num [delete_account, wrap500, delete_account_body, findAccount, accPred,
      dbAlice, dbAliceGone, removeFirst]
  · rfl

/-- C6 counterexample: `deposit` performs no validation of the amount:
depositing -5 into the account with balance 10 succeeds (no
`ValidationError`) and the balance becomes 5, not 10. -/
theorem C6_counterexample :
    deposit 1 (-5) dbTen = .ok dbTenAfterNegDeposit ∧
    (findAccount dbTenAfterNegDeposit 1).map AccountDB.balance = some 5 := by
  constructor
  · norm_num [deposit, wrap500, deposit_body, findAccount, accPred, dbTen,
      dbTenAfterNegDeposit, updateFirst]
  · rfl

/-- C7 counterexample: `transfer` rejects neither self-transfers nor
non-positive amounts: a self-transfer of 5 on account 1 (balance 10)
succeeds and so does a transfer of -3 from account 1 to account 2, leaving
account 2 with balance -3. -/
theorem C7_counterexample :
    transfer 1 1 5 dbTen = .ok dbTen ∧
    transfer 1 2 (-3) dbPair = .ok ⟨[⟨1, "A", 13, false⟩, ⟨2, "B", -3, false⟩], [], 3, 1⟩ := by
  constructor
  · norm_num [transfer, wrap500, transfer_body, findAccount, accPred, dbTen, updateFirst]
  · norm_num [transfer, wrap500, transfer_body, findAccount, accPred, dbPair, updateFirst]

/-- C8 counterexample: the journal performs no validation of the transaction
type: recording a transaction with type "bogus" — not one of the three
enumerated kinds — succeeds and appends the record. -/
theorem C8_counterexample :
    create_transaction 1 ⟨7, "bogus", false⟩ dbAlice =
      .ok ⟨[⟨1, "Alice", 100, false⟩], [⟨1, 1, 7, "bogus", false⟩], 2, 2⟩ ∧
    ("bogus" ∈ (["deposit", "withdrawal", "transfer"] : List String)) = False := by
  constructor
  · rfl
  · simp

/-- C1 amended: only `withdraw` guarantees non-negativity of the balance it
mutates: after a successful `withdraw i x`, the active account read back
under id `i` has balance ≥ 0. -/
theorem C1_amended_withdraw_nonneg (db db' : DB) (i : Nat) (x : ℚ)
    (h : withdraw i x db = .ok db') (a' : AccountDB)
    (ha' : findAccount db' i = some a') : 0 ≤ a'.balance := by
  have h' : withdraw_body i x db = .ok db' := wrap500_eq_ok.mp h
  cases hfind : findAccount db i with
  | none =>
    simp only [withdraw_body, hfind] at h'
    exact Except.noConfusion h'
  | some a =>
    simp only [withdraw_body, hfind] at h'
    by_cases hx : a.balance < x
    · simp [hx] at h'
    · simp only [if_neg hx, Except.ok.injEq] at h'
      subst h'
      have e1 : findAccount { db with accounts := updateFirst (accPred i) (fun c => { c with balance := c.balance - x }) db.accounts } i = some { a with balance := a.balance - x } := by
        show List.find? (accPred i) (updateFirst (accPred i) (fun c => { c with balance := c.balance - x }) db.accounts) = _
        rw [find?_updateFirst (accPred i) (fun c => { c with balance := c.balance - x }) db.accounts (fun c hc => hc),
          show db.accounts.find? (accPred i) = some a from hfind]
        rfl
      rw [e1] at ha'
      obtain rfl : ({ a with balance := a.balance - x } : AccountDB) = a' := by
        injection ha'
      exact sub_nonneg.mpr (not_lt.mp hx)

/-- C1 witness: withdrawing 3 from the concrete account with balance 5
leaves a non-negative balance. -/
theorem C1_withdraw_nonneg_witness : 0 ≤ (⟨1, "A", 2, false⟩ : AccountDB).balance :=
  C1_amended_withdraw_nonneg dbWit ⟨[⟨1, "A", 2, false⟩], [⟨1, 1, 2, "deposit", false⟩], 2, 2⟩
    1 3
    (by norm_num [withdraw, wrap500, withdraw_body, findAccount, accPred, dbWit, updateFirst])
    ⟨1, "A", 2, false⟩ rfl

/-- C2: a successful transfer between two distinct active accounts debits the
source by exactly x, credits the target by exactly x, and conserves the sum
of the two balances. -/
theorem C2_transfer_conservation (db db' : DB) (s t : Nat) (x : ℚ)
    (hne : s ≠ t) (a b : AccountDB)
    (hs : findAccount db s = some a) (ht : findAccount db t = some b)
    (h : transfer s t x db = .ok db') :
    (findAccount db' s).map AccountDB.balance = some (a.balance - x) ∧
    (findAccount db' t).map AccountDB.balance = some (b.balance + x) ∧
    a.balance - x + (b.balance + x) = a.balance + b.balance := by
  have h' : transfer_body s t x db = .ok db' := wrap500_eq_ok.mp h
  simp only [transfer_body, hs, ht] at h'
  by_cases hx : a.balance < x
  · simp [hx] at h'
  · simp only [if_neg hx, Except.ok.injEq] at h'
    subst h'
    refine ⟨?_, ?_, by ring⟩
    · show (List.find? (accPred s) (updateFirst (accPred t) (fun c => { c with balance := c.balance + x }) (updateFirst (accPred s) (fun c => { c with balance := c.balance - x }) db.accounts))).map AccountDB.balance = some (a.balance - x)
      rw [find?_updateFirst_disjoint (accPred s) (accPred t)
          (fun c => { c with balance := c.balance + x })
          (updateFirst (accPred s) (fun c => { c with balance := c.balance - x }) db.accounts)
          (fun c hc => accPred_of_ne hne c hc) (fun c hc => accPred_of_ne hne c hc),
        find?_updateFirst (accPred s) (fun c => { c with balance := c.balance - x })
          db.accounts (fun c hc => hc),
        show db.accounts.find? (accPred s) = some a from hs]
      rfl
    · show (List.find? (accPred t) (updateFirst (accPred t) (fun c => { c with balance := c.balance + x }) (updateFirst (accPred s) (fun c => { c with balance := c.balance - x }) db.accounts))).map AccountDB.balance = some (b.balance + x)
      rw [find?_updateFirst (accPred t) (fun c => { c with balance := c.balance + x })
          (updateFirst (accPred s) (fun c => { c with balance := c.balance - x }) db.accounts)
          (fun c hc => hc),
        find?_updateFirst_disjoint (accPred t) (accPred s)
          (fun c => { c with balance := c.balance - x }) db.accounts
          (fun c hc => accPred_of_ne (Ne.symm hne) c hc)
          (fun c hc => accPred_of_ne (Ne.symm hne) c hc),
        show db.accounts.find? (accPred t) = some b from ht]
      rfl

/-- C2 witness: transferring 4 from the concrete account with balance 10 to
the one with balance 0 yields balances 6 and 4 and conserves the sum. -/
theorem C2_transfer_conservation_witness :
    (findAccount ⟨[⟨1, "A", 6, false⟩, ⟨2, "B", 4, false⟩], [], 3, 1⟩ 1).map
        AccountDB.balance = some ((10 : ℚ) - 4) ∧
    (findAccount ⟨[⟨1, "A", 6, false⟩, ⟨2, "B", 4, false⟩], [], 3, 1⟩ 2).map
        AccountDB.balance = some ((0 : ℚ) + 4) ∧
    (10 : ℚ) - 4 + (0 + 4) = 10 + 0 :=
  C2_transfer_conservation dbPair ⟨[⟨1, "A", 6, false⟩, ⟨2, "B", 4, false⟩], [], 3, 1⟩
    1 2 4 (by decide) ⟨1, "A", 10, false⟩ ⟨2, "B", 0, false⟩ rfl rfl
    (by norm_num [transfer, wrap500, transfer_body, findAccount, accPred, dbPair, updateFirst])

/-- C4 amended: deleting an existing active account physically removes the
row (the store shrinks by one), while deleting an existing active
transaction is a soft-delete (the store keeps the row, now with `deleted_at`
set); deleting an absent or already-deleted entity fails, the 404 being
re-raised as a 500 internal error by the catch-all clause. -/
theorem C4_amended_delete_semantics (db : DB) (i aid j i2 j2 : Nat)
    (a : AccountDB) (tr : TransactionDB)
    (ha : findAccount db i = some a) (htr : findTransaction db j = some tr)
    (ha2 : findAccount db i2 = none) (htr2 : findTransaction db j2 = none) :
    (∃ db', delete_account i db = .ok db' ∧
      db'.accounts.length + 1 = db.accounts.length) ∧
    (∃ db', delete_transaction aid j db = .ok db' ∧
      db'.transactions.length = db.transactions.length ∧
      ({ tr with deleted := true } : TransactionDB) ∈ db'.transactions) ∧
    delete_account i2 db = .error ⟨500, "404: Account not found"⟩ ∧
    delete_transaction aid j2 db = .error ⟨500, "404: Transaction not found"⟩ := by
  refine ⟨⟨{ db with accounts := removeFirst (accPred i) db.accounts }, ?_, ?_⟩,
    ⟨{ db with transactions := updateFirst (transPred j) (fun u => { u with deleted := true }) db.transactions }, ?_, ?_, ?_⟩, ?_, ?_⟩
  · simp only [delete_account, delete_account_body, ha, wrap500]
  · exact length_removeFirst (accPred i) db.accounts a ha
  · simp only [delete_transaction, delete_transaction_body, htr, wrap500]
  · exact length_updateFirst (transPred j) (fun u => { u with deleted := true }) db.transactions
  · exact mem_updateFirst (transPred j) (fun u => { u with deleted := true }) db.transactions tr htr
  · simp only [delete_account, delete_account_body, ha2, wrap500]
    rw [str404_account]
  · simp only [delete_transaction, delete_transaction_body, htr2, wrap500]
    rw [str404_transaction]

/-- C4 witness: on the concrete store with one account and one transaction,
deleting the account shrinks the table, deleting the transaction keeps it
(soft), and deleting absent ids fails with the wrapped 500. -/
theorem C4_delete_semantics_witness :
    (∃ db', delete_account 1 dbWit = .ok db' ∧
      db'.accounts.length + 1 = dbWit.accounts.length) ∧
    (∃ db', delete_transaction 1 1 dbWit = .ok db' ∧
      db'.transactions.length = dbWit.transactions.length ∧
      ({ (⟨1, 1, 2, "deposit", false⟩ : TransactionDB) with deleted := true } : TransactionDB) ∈ db'.transactions) ∧
    delete_account 7 dbWit = .error ⟨500, "404: Account not found"⟩ ∧
    delete_transaction 1 7 dbWit = .error ⟨500, "404: Transaction not found"⟩ :=
  C4_amended_delete_semantics dbWit 1 1 1 7 7 ⟨1, "A", 5, false⟩ ⟨1, 1, 2, "deposit", false⟩
    rfl rfl rfl rfl

/-- C6 amended: `deposit` performs no validation of the amount: for every
active account and every amount x (positive or not) the deposit succeeds and
the account's balance becomes its old balance plus x. -/
theorem C6_amended_deposit_no_validation (db : DB) (i : Nat) (x : ℚ) (a : AccountDB)
    (ha : findAccount db i = some a) :
    ∃ db', deposit i x db = .ok db' ∧
      (findAccount db' i).map AccountDB.balance = some (a.balance + x) := by
  refine ⟨{ db with accounts := updateFirst (accPred i) (fun c => { c with balance := c.balance + x }) db.accounts }, ?_, ?_⟩
  · simp only [deposit, deposit_body, ha, wrap500]
  · show (List.find? (accPred i) (updateFirst (accPred i) (fun c => { c with balance := c.balance + x }) db.accounts)).map AccountDB.balance = some (a.balance + x)
    rw [find?_updateFirst (accPred i) (fun c => { c with balance := c.balance + x })
        db.accounts (fun c hc => hc),
      show db.accounts.find? (accPred i) = some a from ha]
    rfl

/-- C6 witness: depositing -5 into the concrete account with balance 10
succeeds and yields balance 10 + (-5). -/
theorem C6_deposit_no_validation_witness :
    ∃ db', deposit 1 (-5) dbTen = .ok db' ∧
      (findAccount db' 1).map AccountDB.balance = some ((10 : ℚ) + -5) :=
  C6_amended_deposit_no_validation dbTen 1 (-5) ⟨1, "A", 10, false⟩ rfl

/-- C7 amended: `transfer` validates neither the amount nor distinctness of
the two accounts: whenever both ids resolve to active accounts and the
source balance is not below the amount, the transfer succeeds — including
for non-positive amounts and for source = target. -/
theorem C7_amended_transfer_no_validation (db : DB) (s t : Nat) (x : ℚ)
    (a b : AccountDB) (hs : findAccount db s = some a) (ht : findAccount db t = some b)
    (hx : ¬ a.balance < x) :
    ∃ db', transfer s t x db = .ok db' := by
  refine ⟨{ db with accounts := updateFirst (accPred t) (fun c => { c with balance := c.balance + x }) (updateFirst (accPred s) (fun c => { c with balance := c.balance - x }) db.accounts) }, ?_⟩
  simp only [transfer, transfer_body, hs, ht, if_neg hx, wrap500]

/-- C7 witness: the transfer of -3 from concrete account 1 (balance 10) to
account 2 succeeds even though the amount is negative. -/
theorem C7_transfer_no_validation_witness :
    ∃ db', transfer 1 2 (-3) dbPair = .ok db' :=
  C7_amended_transfer_no_validation dbPair 1 2 (-3) ⟨1, "A", 10, false⟩ ⟨2, "B", 0, false⟩
    rfl rfl (by norm_num)

/-- C8 amended: the journal's record operation performs no validation of the
type string: for every type (enumerated or not) it succeeds and appends one
transaction record carrying exactly the requested fields. -/
theorem C8_amended_record_no_validation (db : DB) (aid : Nat) (tc : TransactionCreate) :
    ∃ db', create_transaction aid tc db = .ok db' ∧
      db'.transactions.length = db.transactions.length + 1 ∧
      (⟨db.nextTransId, aid, tc.amount, tc.kind, tc.deleted⟩ : TransactionDB) ∈ db'.transactions := by
  refine ⟨{ db with transactions := db.transactions ++ [⟨db.nextTransId, aid, tc.amount, tc.kind, tc.deleted⟩], nextTransId := db.nextTransId + 1 }, rfl, ?_, ?_⟩
  · simp
  · simp

/-- C10: a self-transfer of x on an active account with balance ≥ x succeeds
and the account's balance is unchanged: the session identity map aliases
source and target to the same record, so the debit and credit cancel. -/
theorem C10_self_transfer (db : DB) (i : Nat) (x : ℚ) (a : AccountDB)
    (ha : findAccount db i = some a) (hx : x ≤ a.balance) :
    ∃ db', transfer i i x db = .ok db' ∧ findAccount db' i = some a := by
  have hnl : ¬ a.balance < x := not_lt.mpr hx
  refine ⟨{ db with accounts := updateFirst (accPred i) (fun c => { c with balance := c.balance + x }) (updateFirst (accPred i) (fun c => { c with balance := c.balance - x }) db.accounts) }, ?_, ?_⟩
  · simp only [transfer, transfer_body, ha, if_neg hnl, wrap500]
  · show List.find? (accPred i) (updateFirst (accPred i) (fun c => { c with balance := c.balance + x }) (updateFirst (accPred i) (fun c => { c with balance := c.balance - x }) db.accounts)) = some a
    rw [find?_updateFirst (accPred i) (fun c => { c with balance := c.balance + x })
        (updateFirst (accPred i) (fun c => { c with balance := c.balance - x }) db.accounts)
        (fun c hc => hc),
      find?_updateFirst (accPred i) (fun c => { c with balance := c.balance - x })
        db.accounts (fun c hc => hc),
      show db.accounts.find? (accPred i) = some a from ha]
    show some { a with balance := a.balance - x + x } = some a
    rw [sub_add_cancel]

/-- C10 witness: the self-transfer of 5 on the concrete account with balance
10 succeeds and the balance is still 10. -/
theorem C10_self_transfer_witness :
    ∃ db', transfer 1 1 5 dbTen = .ok db' ∧ findAccount db' 1 = some ⟨1, "A", 10, false⟩ :=
  C10_self_transfer dbTen 1 5 ⟨1, "A", 10, false⟩ rfl (by norm_num)
